import Mathlib

/-!
Shallow embedding of the onboarding backend found in
`src/my-onboarding/my-onboarding-backend/app.py` and `models.py`.

Modeling conventions:
* JSON values are the inductive `Json`; JSON numbers are modeled as integers
  (the endpoints under study only manipulate integral numbers).
* Python dicts are association lists (`Dict`); `{**a, **b}` is `pyMerge a b`,
  which keeps `a`'s key order with `b`'s values winning, then appends the
  keys of `b` that are new — exactly Python's dict-merge semantics at the
  level of key lookup and ordering.
* The database session is the explicit state `DB`: the list of user rows and
  the optional `AdminConfig` row named "default".  Commits always succeed in
  the model (storage failure is an external-collaborator concern).
* `request.get_json().get(k)` is an `Option` field of the request structure.
  Fields that the handlers only ever treat as strings (username, email,
  password, the config page lists) are modeled at that type; `age` keeps the
  full `Json` type because the handler's truthiness test on it matters.
* The password hashing primitive is declared an opaque external capability;
  it is modeled by an injective placeholder `generate_password_hash`.
* Fresh ids (`uuid`) and timestamps are nondeterministic inputs of the
  environment, passed to `register_user` as explicit arguments.
-/

inductive Json where
  | null : Json
  | bool : Bool → Json
  | num : Int → Json
  | str : String → Json
  | arr : List Json → Json
  | obj : List (String × Json) → Json

abbrev Dict := List (String × Json)

/-- Python truthiness of a JSON-compatible value (`bool(x)`). -/
def Json.truthy : Json → Bool
  | .null => false
  | .bool b => b
  | .num n => n != 0
  | .str s => s != ""
  | .arr l => !l.isEmpty
  | .obj l => !l.isEmpty

/-- Truthiness of `data.get(k)`: an absent key yields `None`, which is falsy. -/
def otruthy : Option Json → Bool
  | none => false
  | some j => j.truthy

/-- Truthiness of an optional string field. -/
def struthy : Option String → Bool
  | none => false
  | some s => s != ""

/-- Outcome of Python `int(x)` on a JSON value: success, `ValueError`
(non-numeric string — the handler catches this), or `TypeError`
(list/dict/None — uncaught, surfaces as a 500). -/
inductive PyInt where
  | ok (n : Int)
  | valueError
  | typeError
deriving DecidableEq

/-- Python `int(x)` for a JSON value. -/
def pyIntOf : Json → PyInt
  | .num n => .ok n
  | .bool b => .ok (if b then 1 else 0)
  | .str s =>
    match s.toInt? with
    | some n => .ok n
    | none => .valueError
  | .null => .typeError
  | .arr _ => .typeError
  | .obj _ => .typeError

/-- First-match lookup in an association list, i.e. Python `d[k]`/`d.get(k)`
(dicts produced by JSON parsing have unique keys, so first match is the
unique match). -/
def dictLookup (d : Dict) (k : String) : Option Json :=
  match d with
  | [] => none
  | (k1, v) :: rest => if k1 == k then some v else dictLookup rest k

/-- Python `{**a, **b}`: `a`'s keys in order with `b`'s value where `b` has
the key, then the keys of `b` absent from `a`, in `b`'s order. -/
def pyMerge (a b : Dict) : Dict :=
  a.map (fun kv => (kv.1, (dictLookup b kv.1).getD kv.2)) ++
    b.filter (fun kv => (dictLookup a kv.1).isNone)

/-- A row of the `User` table (models.py).  `created_at` is the optional
creation timestamp rendered as an ISO string (the model never interprets
it). -/
structure User where
  id : String
  username : String
  email : String
  password_hash : String
  age : Int
  onboarding_data : Dict
  current_step : Int
  created_at : Option String

/-- `User.to_dict` from models.py: the public projection, password hash
excluded. -/
def User.to_dict (u : User) : Dict :=
  [ ("id", .str u.id),
    ("username", .str u.username),
    ("email", .str u.email),
    ("age", .num u.age),
    ("onboardingData", .obj u.onboarding_data),
    ("currentStep", .num u.current_step),
    ("created_at", match u.created_at with
      | some s => .str (s ++ "Z")
      | none => .null) ]

/-- The singleton `AdminConfig` row (models.py). -/
structure AdminConfig where
  config_name : String
  page1_components : List String
  page2_components : List String
  page3_components : List String

/-- `AdminConfig.to_dict` from models.py. -/
def AdminConfig.to_dict (c : AdminConfig) : Dict :=
  [ ("page1", .arr (c.page1_components.map .str)),
    ("page2", .arr (c.page2_components.map .str)),
    ("page3", .arr (c.page3_components.map .str)) ]

/-- The database state: user rows plus the optional config row named
"default" (`none` models the row being absent). -/
structure DB where
  users : List User
  config : Option AdminConfig

/-- HTTP-level outcome of a handler, tagged by status code family, with the
JSON body or error message the handler produces. -/
inductive ApiResult where
  | created (body : Dict)
  | ok (body : Dict)
  | okArr (items : List Json)
  | validationError (msg : String)
  | forbidden (msg : String)
  | conflict (msg : String)
  | notFound (msg : String)
  | internalError (msg : String)

def ApiResult.isCreated : ApiResult → Bool
  | .created _ => true
  | _ => false

def ApiResult.isForbidden : ApiResult → Bool
  | .forbidden _ => true
  | _ => false

def ApiResult.isConflict : ApiResult → Bool
  | .conflict _ => true
  | _ => false

/-- The keys of the JSON object body of a response (empty for non-object
responses). -/
def ApiResult.bodyKeys : ApiResult → List String
  | .created body => body.map Prod.fst
  | .ok body => body.map Prod.fst
  | _ => []

/-- `User.query.get(user_id)`: primary-key lookup. -/
def findUser (users : List User) (uid : String) : Option User :=
  users.find? (fun u => u.id == uid)

/-- Mutate the row with the given primary key (ids are unique, being the
primary key, so at most one row is affected). -/
def updateById (users : List User) (uid : String) (f : User → User) : List User :=
  users.map (fun u => if u.id == uid then f u else u)

/-- Opaque external password-hashing capability (werkzeug
`generate_password_hash`), modeled as an injective placeholder. -/
def generate_password_hash (password : String) : String :=
  "pbkdf2-digest-of-" ++ password

/-- Body of `POST /register` (`request.get_json()` field accesses). -/
structure RegisterRequest where
  username : Option String
  email : Option String
  password : Option String
  age : Option Json

/-- The `register_user` handler (app.py lines 95-156).  `freshId` and `now`
are the environment-supplied uuid-based id and creation timestamp. -/
def register_user (db : DB) (req : RegisterRequest) (freshId : String)
    (now : Option String) : ApiResult × DB :=
  if !(struthy req.username && struthy req.email && struthy req.password
        && otruthy req.age) then
    (.validationError "Username, email, password, and age are required.", db)
  else
    match pyIntOf (req.age.getD .null) with
    | .typeError => (.internalError "unhandled TypeError", db)
    | .valueError => (.validationError "Age must be a valid number.", db)
    | .ok age =>
      if age < 1 then
        (.validationError "Invalid age provided.", db)
      else if age < 18 then
        (.forbidden
          "Cannot Onboard You, Please have an adult to register your details.",
         db)
      else
        if (db.users.find? (fun u => u.email == req.email.getD "")).isSome then
          (.conflict "User with this email already exists.", db)
        else if (db.users.find? (fun u => u.username == req.username.getD "")).isSome then
          (.conflict "User with this username already exists.", db)
        else
          let newUser : User :=
            { id := freshId,
              username := req.username.getD "",
              email := req.email.getD "",
              password_hash := generate_password_hash (req.password.getD ""),
              age := age,
              onboarding_data := [("email", .str (req.email.getD "")), ("age", .num age)],
              current_step := 1,
              created_at := now }
          (.created
            [ ("message", .str "User registered successfully."),
              ("userId", .str newUser.id),
              ("onboardingData", .obj newUser.onboarding_data),
              ("currentStep", .num newUser.current_step),
              ("username", .str newUser.username) ],
           { db with users := db.users ++ [newUser] })

/-- The `GET /user/<id>/progress` handler (app.py lines 158-166). -/
def get_user_progress (db : DB) (uid : String) : ApiResult :=
  match findUser db.users uid with
  | none => .notFound "User not found."
  | some u => .ok u.to_dict

/-- The per-row mutation performed by `update_user_data` (app.py lines
183-194).  The stored `onboarding_data` column always round-trips through
the JSON column type as a dict, so the defensive stringified-JSON branch of
the source is never taken in the model. -/
def applyUpdate (u : User) (newData : Option Dict) (newStep : Option Int) :
    User :=
  let u1 :=
    match newData with
    | none => u
    | some d => { u with onboarding_data := pyMerge u.onboarding_data d }
  match newStep with
  | none => u1
  | some k => { u1 with current_step := max u1.current_step k }

/-- The `PUT /user/<id>/update_data` handler (app.py lines 168-203).
`newData` is the optional `onboardingData` mapping and `newStep` the
optional integer `currentStep` of the request body. -/
def update_user_data (db : DB) (uid : String) (newData : Option Dict)
    (newStep : Option Int) : ApiResult × DB :=
  match findUser db.users uid with
  | none => (.notFound "User not found.", db)
  | some u =>
    let users' := updateById db.users uid (fun v => applyUpdate v newData newStep)
    (.ok (applyUpdate u newData newStep).to_dict, { db with users := users' })

/-- The `POST /user/<id>/complete` handler (app.py lines 205-223). -/
def complete_onboarding (db : DB) (uid : String) : ApiResult × DB :=
  match findUser db.users uid with
  | none => (.notFound "User not found.", db)
  | some _ =>
    let users' := updateById db.users uid (fun u => { u with current_step := 4 })
    (.ok [("message", .str "Onboarding completed successfully!")],
     { db with users := users' })

/-- Body of `PUT /admin/config`: each page list is independently optional
(`None` models an omitted key; `some []` a supplied empty list). -/
structure ConfigPutRequest where
  page1 : Option (List String)
  page2 : Option (List String)
  page3 : Option (List String)

/-- The `GET /admin/config` branch of `admin_config_endpoint` (app.py lines
225-237). -/
def admin_config_get (db : DB) : ApiResult :=
  match db.config with
  | none =>
    .internalError
      "Admin configuration not found. Please initialize the database using flask init-db."
  | some cfg => .ok cfg.to_dict

/-- The field updates of the PUT branch of `admin_config_endpoint` (app.py
lines 247-252): each page list supplied in the request replaces the stored
one; an omitted key leaves the stored list as it was. -/
def putResult (cfg : AdminConfig) (req : ConfigPutRequest) : AdminConfig :=
  { cfg with
    page1_components := req.page1.getD cfg.page1_components,
    page2_components := req.page2.getD cfg.page2_components,
    page3_components := req.page3.getD cfg.page3_components }

/-- The `PUT /admin/config` branch of `admin_config_endpoint` (app.py lines
239-270): replace each supplied page list, then reset every user's
`current_step` to 1. -/
def admin_config_put (db : DB) (req : ConfigPutRequest) : ApiResult × DB :=
  match db.config with
  | none =>
    (.internalError
      "Admin configuration not found. Please initialize the database using flask init-db.",
     db)
  | some cfg =>
    (.ok (putResult cfg req).to_dict,
     { users := db.users.map (fun u => { u with current_step := 1 }),
       config := some (putResult cfg req) })

/-- The `GET /admin/users` handler (app.py lines 272-278). -/
def get_all_users (db : DB) : ApiResult :=
  .okArr (db.users.map (fun u => .obj u.to_dict))

/-- One client-visible mutating operation, for reachability reasoning.
Covers exactly the four state-mutating operations of the claims:
registration, data update, completion and admin-config update. -/
inductive Op where
  | opRegister (req : RegisterRequest) (freshId : String) (now : Option String)
  | opUpdate (uid : String) (newData : Option Dict) (newStep : Option Int)
  | opComplete (uid : String)
  | opAdminPut (req : ConfigPutRequest)

/-- The state transition of one operation (the response is discarded). -/
def applyOp (db : DB) (op : Op) : DB :=
  match op with
  | .opRegister req freshId now => (register_user db req freshId now).2
  | .opUpdate uid d k => (update_user_data db uid d k).2
  | .opComplete uid => (complete_onboarding db uid).2
  | .opAdminPut req => (admin_config_put db req).2

/-- The state established by `flask init-db`: no users, the seeded default
config (app.py lines 64-76). -/
def initDB : DB :=
  { users := [],
    config := some
      { config_name := "default",
        page1_components := ["email", "age"],
        page2_components := ["aboutMe", "address"],
        page3_components := ["birthdate"] } }

/-- Run a sequence of operations from the initialized state. -/
def run (ops : List Op) : DB :=
  ops.foldl applyOp initDB

/-- First-some choice on options (`x or y` on lookup results). -/
def optOr (x y : Option Json) : Option Json :=
  match x with
  | some v => some v
  | none => y

/-- An operation whose proposed step (if any) stays within the terminal
value 4. -/
def stepOK : Op → Bool
  | .opUpdate _ _ (some k) => decide (k ≤ 4)
  | _ => true

/-! ### Concrete fixtures used by witnesses and counterexamples -/

/-- Registration request of the worked example in the spec. -/
def aliceReq : RegisterRequest :=
  { username := some "alice", email := some "a@x.com", password := some "pw",
    age := some (.num 25) }

/-- State after registering alice in the freshly initialized database. -/
def db1 : DB := (register_user initDB aliceReq "u1" none).2

/-- The stored row the registration above creates. -/
def uAlice : User :=
  { id := "u1", username := "alice", email := "a@x.com",
    password_hash := "pbkdf2-digest-of-pw", age := 25,
    onboarding_data := [("email", .str "a@x.com"), ("age", .num 25)],
    current_step := 1, created_at := none }

/-- A partial onboarding-data mapping with one new key. -/
def dW : Dict := [("about", .str "hi")]

/-- State after moving alice to step 3. -/
def db2 : DB := (update_user_data db1 "u1" none (some 3)).2

/-- Alice at step 3. -/
def uAlice3 : User := { uAlice with current_step := 3 }

/-- The seeded default configuration (used by witnesses). -/
def initCfgW : AdminConfig :=
  { config_name := "default",
    page1_components := ["email", "age"],
    page2_components := ["aboutMe", "address"],
    page3_components := ["birthdate"] }

/-- A config PUT that replaces page1, omits page2 and empties page3. -/
def reqW : ConfigPutRequest :=
  { page1 := some ["x"], page2 := none, page3 := some [] }

/-- Operation sequence breaking the 1..4 range: register alice, then a data
update proposing step 100 (the handler stores max(1, 100) = 100 with no
upper clamp). -/
def cexOps : List Op :=
  [.opRegister aliceReq "u1" none, .opUpdate "u1" none (some 100)]

/-- Alice after the sequence above: stored step 100. -/
def uAlice100 : User := { uAlice with current_step := 100 }

/-- A well-behaved sequence: register, move to step 3, complete. -/
def opsW : List Op :=
  [.opRegister aliceReq "u1" none, .opUpdate "u1" none (some 3),
   .opComplete "u1"]

/-- Alice after the sequence above: stored step 4. -/
def uAlice4 : User := { uAlice with current_step := 4 }

/-- A request with negative age: all four fields truthy. -/
def negAgeReq : RegisterRequest :=
  { username := some "bob", email := some "b@x.com", password := some "pw",
    age := some (.num (-3)) }

/-- An underage but otherwise well-formed request. -/
def kidReq : RegisterRequest :=
  { username := some "kid", email := some "k@x.com", password := some "pw",
    age := some (.num 7) }

/-- Same email as alice, but underage. -/
def carolKidReq : RegisterRequest :=
  { username := some "carol", email := some "a@x.com", password := some "pw2",
    age := some (.num 7) }

/-- Same email as alice, adult. -/
def carolReq : RegisterRequest :=
  { username := some "carol", email := some "a@x.com", password := some "pw2",
    age := some (.num 30) }

/-! ### Association-list lemmas -/

theorem optOr_some (v : Json) (y : Option Json) : optOr (some v) y = some v := rfl

theorem optOr_none (y : Option Json) : optOr none y = y := rfl

theorem dictLookup_append (xs ys : Dict) (k : String) :
    dictLookup (xs ++ ys) k = optOr (dictLookup xs k) (dictLookup ys k) := by
  induction xs with
  | nil => rfl
  | cons hd tl ih =>
    obtain ⟨k1, v⟩ := hd
    cases h : (k1 == k) <;> simp [dictLookup, h, ih, optOr]

theorem dictLookup_filter_congr (b : Dict) (p q : String × Json → Bool)
    (k : String) (h : ∀ kv : String × Json, kv.1 = k → p kv = q kv) :
    dictLookup (b.filter p) k = dictLookup (b.filter q) k := by
  induction b with
  | nil => rfl
  | cons hd tl ih =>
    by_cases hk : hd.1 = k
    · rw [List.filter_cons, List.filter_cons, h hd hk]
      cases hq : q hd
      · exact ih
      · obtain ⟨k1, v⟩ := hd
        simp_all [dictLookup]
    · rw [List.filter_cons, List.filter_cons]
      obtain ⟨k1, v⟩ := hd
      simp only at hk
      have hbeq : (k1 == k) = false := by simp [hk]
      cases hp : p (k1, v) <;> cases hq : q (k1, v) <;>
        simp [dictLookup, hbeq, ih]

theorem dictLookup_cons_eq (k1 : String) (v : Json) (rest : Dict) :
    dictLookup ((k1, v) :: rest) k1 = some v := by
  simp [dictLookup]

theorem dictLookup_cons_ne (k1 : String) (v : Json) (rest : Dict) (k : String)
    (h : (k1 == k) = false) :
    dictLookup ((k1, v) :: rest) k = dictLookup rest k := by
  simp [dictLookup, h]

/-- The key fact about Python dict merge: a key of `b` gets `b`'s value,
any other key keeps its `a` value. -/
theorem dictLookup_pyMerge (a b : Dict) (k : String) :
    dictLookup (pyMerge a b) k = optOr (dictLookup b k) (dictLookup a k) := by
  induction a with
  | nil =>
    have hfil : b.filter (fun kv => (dictLookup ([] : Dict) kv.1).isNone) = b := by
      apply List.filter_eq_self.mpr
      intro kv _
      rfl
    simp only [pyMerge, List.map_nil, List.nil_append, hfil]
    cases h : dictLookup b k <;> simp [dictLookup, optOr, h]
  | cons hd tl ih =>
    obtain ⟨k1, v1⟩ := hd
    have hcons : pyMerge ((k1, v1) :: tl) b
        = (k1, (dictLookup b k1).getD v1) ::
          ((tl.map fun kv => (kv.1, (dictLookup b kv.1).getD kv.2)) ++
            b.filter fun kv => (dictLookup ((k1, v1) :: tl) kv.1).isNone) := rfl
    by_cases hk : k1 = k
    · subst hk
      rw [hcons, dictLookup_cons_eq, dictLookup_cons_eq]
      cases h : dictLookup b k1 <;> simp [optOr, h]
    · have hbeq : (k1 == k) = false := by simp [hk]
      have hfil :
          dictLookup (b.filter fun kv =>
            (dictLookup ((k1, v1) :: tl) kv.1).isNone) k =
          dictLookup (b.filter fun kv => (dictLookup tl kv.1).isNone) k := by
        apply dictLookup_filter_congr
        intro kv hkv
        have hne : (k1 == kv.1) = false := by
          rw [hkv]
          simp [hk]
        simp [dictLookup, hne]
      calc dictLookup (pyMerge ((k1, v1) :: tl) b) k
          = optOr
              (dictLookup (tl.map fun kv => (kv.1, (dictLookup b kv.1).getD kv.2)) k)
              (dictLookup (b.filter fun kv =>
                (dictLookup ((k1, v1) :: tl) kv.1).isNone) k) := by
            rw [hcons, dictLookup_cons_ne _ _ _ _ hbeq, dictLookup_append]
        _ = optOr
              (dictLookup (tl.map fun kv => (kv.1, (dictLookup b kv.1).getD kv.2)) k)
              (dictLookup (b.filter fun kv => (dictLookup tl kv.1).isNone) k) := by
            rw [hfil]
        _ = dictLookup (pyMerge tl b) k := (dictLookup_append _ _ _).symm
        _ = optOr (dictLookup b k) (dictLookup tl k) := ih
        _ = optOr (dictLookup b k) (dictLookup ((k1, v1) :: tl) k) := by
            rw [dictLookup_cons_ne _ _ _ _ hbeq]

/-! ### Primary-key lookup and row updates -/

theorem findUser_updateById (users : List User) (uid : String)
    (f : User → User) (hf : ∀ u, (f u).id = u.id) :
    findUser (updateById users uid f) uid = (findUser users uid).map f := by
  induction users with
  | nil => rfl
  | cons u tl ih =>
    cases h : (u.id == uid) with
    | true =>
      have heq : u.id = uid := by simpa using h
      have h' : ((f u).id == uid) = true := by rw [hf u]; exact h
      simp [updateById, findUser, List.find?_cons, heq, h, h']
    | false =>
      simp only [updateById, List.map_cons, findUser, List.find?_cons, h,
        Bool.false_eq_true, if_false] at ih ⊢
      exact ih

theorem applyUpdate_id (u : User) (d : Option Dict) (k : Option Int) :
    (applyUpdate u d k).id = u.id := by
  cases d <;> cases k <;> rfl

theorem applyUpdate_step_none (u : User) (d : Option Dict) :
    (applyUpdate u d none).current_step = u.current_step := by
  cases d <;> rfl

theorem applyUpdate_step_some (u : User) (d : Option Dict) (k : Int) :
    (applyUpdate u d (some k)).current_step = max u.current_step k := by
  cases d <;> rfl

theorem applyUpdate_data_some (u : User) (d : Dict) (k : Option Int) :
    (applyUpdate u (some d) k).onboarding_data = pyMerge u.onboarding_data d := by
  cases k <;> rfl

/-! ### Shape of the registration handler's outcomes -/

theorem find?_isSome_append_singleton {α : Type} (p : α → Bool) (xs : List α)
    (y : α) (hy : p y = true) : ((xs ++ [y]).find? p).isSome = true := by
  induction xs with
  | nil => simp [List.find?, hy]
  | cons x tl ih =>
    cases h : p x with
    | false => simpa [List.find?_cons, h] using ih
    | true => simp [List.find?_cons, h]

/-- Registration either rejects the request and leaves the state untouched,
or appends one fresh user row with step 1 and the request's email, and
answers 201 with the five-field body. -/
theorem register_cases (db : DB) (req : RegisterRequest) (fid : String)
    (now : Option String) :
    ((register_user db req fid now).1.isCreated = false ∧
      (register_user db req fid now).2 = db) ∨
    (∃ u : User,
      (register_user db req fid now).1 = .created
        [ ("message", .str "User registered successfully."),
          ("userId", .str u.id),
          ("onboardingData", .obj u.onboarding_data),
          ("currentStep", .num u.current_step),
          ("username", .str u.username) ] ∧
      (register_user db req fid now).2 =
        { users := db.users ++ [u], config := db.config } ∧
      u.current_step = 1 ∧ u.email = req.email.getD "") := by
  unfold register_user
  split
  · exact Or.inl ⟨rfl, rfl⟩
  · split
    · exact Or.inl ⟨rfl, rfl⟩
    · exact Or.inl ⟨rfl, rfl⟩
    · split
      · exact Or.inl ⟨rfl, rfl⟩
      · split
        · exact Or.inl ⟨rfl, rfl⟩
        · split
          · exact Or.inl ⟨rfl, rfl⟩
          · split
            · exact Or.inl ⟨rfl, rfl⟩
            · exact Or.inr ⟨_, rfl, rfl, rfl, rfl⟩

/-! ### Step-range invariants over operation sequences -/

theorem applyOp_step_lower (db : DB) (op : Op)
    (h : ∀ u ∈ db.users, 1 ≤ u.current_step) :
    ∀ u ∈ (applyOp db op).users, 1 ≤ u.current_step := by
  intro u hu
  cases op with
  | opRegister req fid now =>
    simp only [applyOp] at hu
    rcases register_cases db req fid now with ⟨_, heq⟩ | ⟨w, _, heq, hstep, _⟩
    · rw [heq] at hu
      exact h u hu
    · rw [heq] at hu
      rcases List.mem_append.mp hu with h1 | h2
      · exact h u h1
      · rw [List.mem_singleton.mp h2, hstep]
  | opUpdate uid d k =>
    simp only [applyOp, update_user_data] at hu
    cases hf : findUser db.users uid with
    | none =>
      rw [hf] at hu
      exact h u hu
    | some v =>
      rw [hf] at hu
      simp only [updateById, List.mem_map] at hu
      obtain ⟨v0, hv0, rfl⟩ := hu
      have hv0step := h v0 hv0
      by_cases hid : (v0.id == uid) = true
      · simp only [hid, if_true]
        cases k with
        | none => rw [applyUpdate_step_none]; exact hv0step
        | some n => rw [applyUpdate_step_some]; omega
      · simp only [hid, if_false]
        exact hv0step
  | opComplete uid =>
    simp only [applyOp, complete_onboarding] at hu
    cases hf : findUser db.users uid with
    | none =>
      rw [hf] at hu
      exact h u hu
    | some v =>
      rw [hf] at hu
      simp only [updateById, List.mem_map] at hu
      obtain ⟨v0, hv0, rfl⟩ := hu
      by_cases hid : (v0.id == uid) = true
      · simp [hid]
      · simp only [hid, if_false]
        exact h v0 hv0
  | opAdminPut req =>
    simp only [applyOp, admin_config_put] at hu
    cases hc : db.config with
    | none =>
      rw [hc] at hu
      exact h u hu
    | some cfg =>
      rw [hc] at hu
      simp only [List.mem_map] at hu
      obtain ⟨v0, _, rfl⟩ := hu
      simp

theorem applyOp_step_range (db : DB) (op : Op) (hop : stepOK op = true)
    (h : ∀ u ∈ db.users, 1 ≤ u.current_step ∧ u.current_step ≤ 4) :
    ∀ u ∈ (applyOp db op).users, 1 ≤ u.current_step ∧ u.current_step ≤ 4 := by
  intro u hu
  cases op with
  | opRegister req fid now =>
    simp only [applyOp] at hu
    rcases register_cases db req fid now with ⟨_, heq⟩ | ⟨w, _, heq, hstep, _⟩
    · rw [heq] at hu
      exact h u hu
    · rw [heq] at hu
      rcases List.mem_append.mp hu with h1 | h2
      · exact h u h1
      · rw [List.mem_singleton.mp h2, hstep]
        omega
  | opUpdate uid d k =>
    simp only [applyOp, update_user_data] at hu
    cases hf : findUser db.users uid with
    | none =>
      rw [hf] at hu
      exact h u hu
    | some v =>
      rw [hf] at hu
      simp only [updateById, List.mem_map] at hu
      obtain ⟨v0, hv0, rfl⟩ := hu
      have hv0step := h v0 hv0
      by_cases hid : (v0.id == uid) = true
      · simp only [hid, if_true]
        cases k with
        | none =>
          rw [applyUpdate_step_none]
          exact hv0step
        | some n =>
          rw [applyUpdate_step_some]
          have hn : n ≤ 4 := by simpa [stepOK] using hop
          omega
      · simp only [hid, if_false]
        exact hv0step
  | opComplete uid =>
    simp only [applyOp, complete_onboarding] at hu
    cases hf : findUser db.users uid with
    | none =>
      rw [hf] at hu
      exact h u hu
    | some v =>
      rw [hf] at hu
      simp only [updateById, List.mem_map] at hu
      obtain ⟨v0, hv0, rfl⟩ := hu
      by_cases hid : (v0.id == uid) = true
      · simp [hid]
      · simp only [hid, if_false]
        exact h v0 hv0
  | opAdminPut req =>
    simp only [applyOp, admin_config_put] at hu
    cases hc : db.config with
    | none =>
      rw [hc] at hu
      exact h u hu
    | some cfg =>
      rw [hc] at hu
      simp only [List.mem_map] at hu
      obtain ⟨v0, _, rfl⟩ := hu
      constructor <;> simp

theorem foldl_step_lower (ops : List Op) (db : DB)
    (h : ∀ u ∈ db.users, 1 ≤ u.current_step) :
    ∀ u ∈ (ops.foldl applyOp db).users, 1 ≤ u.current_step := by
  induction ops generalizing db with
  | nil => exact h
  | cons op tl ih => exact ih (applyOp db op) (applyOp_step_lower db op h)

theorem foldl_step_range (ops : List Op) :
    ∀ db : DB, ops.all stepOK = true →
      (∀ u ∈ db.users, 1 ≤ u.current_step ∧ u.current_step ≤ 4) →
      ∀ u ∈ (ops.foldl applyOp db).users,
        1 ≤ u.current_step ∧ u.current_step ≤ 4 := by
  induction ops with
  | nil =>
    intro db _ h
    exact h
  | cons op tl ih =>
    intro db hops h
    rw [List.all_cons, Bool.and_eq_true] at hops
    exact ih (applyOp db op) hops.2 (applyOp_step_range db op hops.1 h)

/-! ### Claim theorems -/

/-- C1: for every existing user and every partial onboarding-data mapping
supplied to the data-update operation, the stored mapping afterwards is the
shallow merge of the prior mapping with the supplied one: keys of the
supplied mapping get the supplied value, keys absent from it keep their
prior value. -/
theorem update_merge_is_shallow (db : DB) (uid : String) (u : User)
    (d : Dict) (stepReq : Option Int) (hu : findUser db.users uid = some u) :
    findUser ((update_user_data db uid (some d) stepReq).2).users uid =
      some (applyUpdate u (some d) stepReq) ∧
    ∀ k : String,
      ((dictLookup d k).isSome = true →
        dictLookup (applyUpdate u (some d) stepReq).onboarding_data k =
          dictLookup d k) ∧
      (dictLookup d k = none →
        dictLookup (applyUpdate u (some d) stepReq).onboarding_data k =
          dictLookup u.onboarding_data k) := by
  constructor
  · simp only [update_user_data, hu]
    rw [findUser_updateById _ _ _ (fun v => applyUpdate_id v (some d) stepReq),
      hu]
    rfl
  · intro k
    rw [applyUpdate_data_some, dictLookup_pyMerge]
    constructor
    · intro hk
      cases h : dictLookup d k with
      | none =>
        rw [h] at hk
        simp at hk
      | some v => rfl
    · intro hk
      rw [hk]
      rfl

theorem update_merge_is_shallow_witness :
    dictLookup (applyUpdate uAlice (some dW) none).onboarding_data "about" =
      dictLookup dW "about" ∧
    dictLookup (applyUpdate uAlice (some dW) none).onboarding_data "age" =
      dictLookup uAlice.onboarding_data "age" :=
  ⟨((update_merge_is_shallow db1 "u1" uAlice dW none rfl).2 "about").1 rfl,
   ((update_merge_is_shallow db1 "u1" uAlice dW none rfl).2 "age").2 rfl⟩

/-- C2: for every existing user with stored step s and proposed step k, the
stored step after the data-update operation is max(s, k); when k < s it is
unchanged, so direct client updates never decrease the step. -/
theorem update_step_monotone (db : DB) (uid : String) (u : User)
    (d : Option Dict) (k : Int) (hu : findUser db.users uid = some u) :
    findUser ((update_user_data db uid d (some k)).2).users uid =
      some (applyUpdate u d (some k)) ∧
    (applyUpdate u d (some k)).current_step = max u.current_step k ∧
    (k < u.current_step →
      (applyUpdate u d (some k)).current_step = u.current_step) := by
  refine ⟨?_, applyUpdate_step_some u d k, ?_⟩
  · simp only [update_user_data, hu]
    rw [findUser_updateById _ _ _ (fun v => applyUpdate_id v d (some k)), hu]
    rfl
  · intro hlt
    rw [applyUpdate_step_some]
    omega

theorem update_step_monotone_witness :
    (applyUpdate uAlice3 none (some 2)).current_step = uAlice3.current_step :=
  (update_step_monotone db2 "u1" uAlice3 none 2 rfl).2.2 (by decide)

/-- C5: the completion operation unconditionally sets the stored step of an
existing user to the terminal value 4 and answers with a confirmation
message only; for a missing id it answers not-found. -/
theorem complete_sets_step_four (db : DB) (uid : String) :
    (∀ u : User, findUser db.users uid = some u →
      (complete_onboarding db uid).1 =
        .ok [("message", .str "Onboarding completed successfully!")] ∧
      findUser ((complete_onboarding db uid).2).users uid =
        some { u with current_step := 4 }) ∧
    (findUser db.users uid = none →
      complete_onboarding db uid = (.notFound "User not found.", db)) := by
  constructor
  · intro u hu
    constructor
    · simp [complete_onboarding, hu]
    · simp only [complete_onboarding, hu]
      rw [findUser_updateById db.users uid
        (fun v => { v with current_step := 4 }) (fun v => rfl), hu]
      rfl
  · intro hn
    simp [complete_onboarding, hn]

theorem complete_sets_step_four_witness :
    (complete_onboarding db2 "u1").1 =
      .ok [("message", .str "Onboarding completed successfully!")] ∧
    findUser ((complete_onboarding db2 "u1").2).users "u1" =
      some { uAlice3 with current_step := 4 } ∧
    complete_onboarding initDB "nobody" = (.notFound "User not found.", initDB) :=
  ⟨((complete_sets_step_four db2 "u1").1 uAlice3 rfl).1,
   ((complete_sets_step_four db2 "u1").1 uAlice3 rfl).2,
   (complete_sets_step_four initDB "nobody").2 rfl⟩

/-- C3: after every successful admin-config PUT, every user in storage has
stored step 1, regardless of prior steps and of which page lists the
request supplied. -/
theorem admin_put_resets_all_steps (db : DB) (cfg : AdminConfig)
    (req : ConfigPutRequest) (hc : db.config = some cfg) :
    ∀ u ∈ ((admin_config_put db req).2).users, u.current_step = 1 := by
  intro u hu
  simp only [admin_config_put, hc, List.mem_map] at hu
  obtain ⟨v, _, rfl⟩ := hu
  rfl

theorem admin_put_resets_all_steps_witness :
    uAlice.current_step = 1 :=
  admin_put_resets_all_steps db2 initCfgW reqW rfl uAlice
    (List.mem_singleton.mpr rfl)

/-- C4: for every admin-config PUT, each supplied page list (an empty list
counts as supplied) entirely replaces the stored one, each omitted page
list is unchanged, and a subsequent GET returns exactly the resulting three
lists. -/
theorem admin_put_replace_semantics (db : DB) (cfg : AdminConfig)
    (req : ConfigPutRequest) (hc : db.config = some cfg) :
    ((admin_config_put db req).2).config = some (putResult cfg req) ∧
    (∀ l, req.page1 = some l → (putResult cfg req).page1_components = l) ∧
    (req.page1 = none →
      (putResult cfg req).page1_components = cfg.page1_components) ∧
    (∀ l, req.page2 = some l → (putResult cfg req).page2_components = l) ∧
    (req.page2 = none →
      (putResult cfg req).page2_components = cfg.page2_components) ∧
    (∀ l, req.page3 = some l → (putResult cfg req).page3_components = l) ∧
    (req.page3 = none →
      (putResult cfg req).page3_components = cfg.page3_components) ∧
    (admin_config_put db req).1 = .ok (putResult cfg req).to_dict ∧
    admin_config_get ((admin_config_put db req).2) =
      .ok (putResult cfg req).to_dict := by
  refine ⟨?_, ?_, ?_, ?_, ?_, ?_, ?_, ?_, ?_⟩
  · simp [admin_config_put, hc]
  · intro l hl
    simp [putResult, hl]
  · intro hl
    simp [putResult, hl]
  · intro l hl
    simp [putResult, hl]
  · intro hl
    simp [putResult, hl]
  · intro l hl
    simp [putResult, hl]
  · intro hl
    simp [putResult, hl]
  · simp [admin_config_put, hc]
  · simp [admin_config_put, admin_config_get, hc]

theorem admin_put_replace_semantics_witness :
    (putResult initCfgW reqW).page1_components = ["x"] ∧
    (putResult initCfgW reqW).page2_components = initCfgW.page2_components ∧
    (putResult initCfgW reqW).page3_components = [] ∧
    admin_config_get ((admin_config_put db2 reqW).2) =
      .ok (putResult initCfgW reqW).to_dict :=
  have h := admin_put_replace_semantics db2 initCfgW reqW rfl
  ⟨h.2.1 ["x"] rfl, h.2.2.2.2.1 rfl, h.2.2.2.2.2.1 [] rfl,
   h.2.2.2.2.2.2.2.2⟩

/-- C6 counterexample: the state reached by `cexOps` holds a user whose
stored step is 100, outside the claimed range 1..4 — data updates have no
upper clamp on the proposed step. -/
theorem step_range_claim_false :
    findUser (run cexOps).users "u1" = some uAlice100 ∧
    ¬(1 ≤ uAlice100.current_step ∧ uAlice100.current_step ≤ 4) :=
  ⟨rfl, by decide⟩

/-- C6 amended: in every state reachable by the modeled operations every
user's stored step is at least 1; and when every proposed step supplied to
the data-update operations of the sequence is at most 4, every user's
stored step lies in 1..4. -/
theorem step_bounds_of_run (ops : List Op) :
    (∀ u ∈ (run ops).users, 1 ≤ u.current_step) ∧
    (ops.all stepOK = true →
      ∀ u ∈ (run ops).users, 1 ≤ u.current_step ∧ u.current_step ≤ 4) :=
  ⟨foldl_step_lower ops initDB
      (fun u hu => absurd hu (List.not_mem_nil u)),
   fun hops => foldl_step_range ops initDB hops
      (fun u hu => absurd hu (List.not_mem_nil u))⟩

theorem step_bounds_of_run_witness :
    1 ≤ uAlice4.current_step ∧ uAlice4.current_step ≤ 4 :=
  (step_bounds_of_run opsW).2 rfl uAlice4
    (show uAlice4 ∈ (run opsW).users from List.mem_cons_self uAlice4 [])

/-- C7 counterexample: an age of -3 is less than 18, yet registration
answers the invalid-age validation error (400, via the age < 1 branch),
not the forbidden (403) outcome the claim requires of every age below
18. -/
theorem underage_forbidden_claim_false :
    (register_user initDB negAgeReq "u9" none).1 =
      .validationError "Invalid age provided." ∧
    (register_user initDB negAgeReq "u9" none).1.isForbidden = false ∧
    (register_user initDB negAgeReq "u9" none).2 = initDB :=
  ⟨rfl, rfl, rfl⟩

/-- C7 amended: a registration request whose fields are all present and
truthy and whose age parses to an integer a with 1 ≤ a < 18 is answered
with the forbidden (403) outcome and creates no user record (the state is
unchanged). -/
theorem underage_forbidden (db : DB) (req : RegisterRequest) (fid : String)
    (now : Option String) (a : Int)
    (hu : struthy req.username = true) (he : struthy req.email = true)
    (hp : struthy req.password = true) (ha : otruthy req.age = true)
    (hage : pyIntOf (req.age.getD .null) = .ok a)
    (h1 : 1 ≤ a) (h18 : a < 18) :
    register_user db req fid now =
      (.forbidden
        "Cannot Onboard You, Please have an adult to register your details.",
       db) := by
  have hcond : (struthy req.username && struthy req.email &&
      struthy req.password && otruthy req.age) = true := by
    rw [hu, he, hp, ha]
    rfl
  simp only [register_user, hcond, Bool.not_true, Bool.false_eq_true,
    if_false, hage]
  rw [if_neg (by omega : ¬(a < 1)), if_pos h18]

theorem underage_forbidden_witness :
    register_user initDB kidReq "u3" none =
      (.forbidden
        "Cannot Onboard You, Please have an adult to register your details.",
       initDB) :=
  underage_forbidden initDB kidReq "u3" none 7 rfl rfl rfl rfl rfl
    (by decide) (by decide)

/-- C8 counterexample: after alice registers successfully, a second request
with her email but age 7 is rejected by the age rule (403) before the
email-uniqueness check runs, so the second attempt is not the claimed
conflict (409). -/
theorem duplicate_email_conflict_claim_false :
    (register_user initDB aliceReq "u1" none).1.isCreated = true ∧
    (register_user db1 carolKidReq "u2" none).1.isConflict = false ∧
    (register_user db1 carolKidReq "u2" none).1.isForbidden = true :=
  ⟨rfl, rfl, rfl⟩

/-- C8 amended: for every pair of registration requests with the same email
where the first succeeds and the second passes the field-presence and age
validation (all fields truthy, age parsing to an integer of at least 18),
the second attempt is answered with the duplicate-email conflict (409) and
creates no record: the state is unchanged by the second call and holds
exactly one more user than before the first. -/
theorem duplicate_email_conflict (db : DB) (r1 r2 : RegisterRequest)
    (fid1 fid2 : String) (now1 now2 : Option String) (a2 : Int)
    (h1 : (register_user db r1 fid1 now1).1.isCreated = true)
    (hemail : r2.email = r1.email)
    (hu : struthy r2.username = true) (he : struthy r2.email = true)
    (hp : struthy r2.password = true) (ha : otruthy r2.age = true)
    (hage : pyIntOf (r2.age.getD .null) = .ok a2) (h18 : 18 ≤ a2) :
    register_user ((register_user db r1 fid1 now1).2) r2 fid2 now2 =
      (.conflict "User with this email already exists.",
       (register_user db r1 fid1 now1).2) ∧
    ((register_user db r1 fid1 now1).2).users.length = db.users.length + 1 := by
  rcases register_cases db r1 fid1 now1 with ⟨hnc, _⟩ | ⟨w, _, heq, _, hwemail⟩
  · rw [h1] at hnc
    exact absurd hnc (by decide)
  · have husers : ((register_user db r1 fid1 now1).2).users = db.users ++ [w] := by
      rw [heq]
    constructor
    · rw [heq]
      have hcond : (struthy r2.username && struthy r2.email &&
          struthy r2.password && otruthy r2.age) = true := by
        rw [hu, he, hp, ha]
        rfl
      have hfind : ((db.users ++ [w]).find?
          (fun v => v.email == r2.email.getD "")).isSome = true := by
        apply find?_isSome_append_singleton
        rw [hwemail, hemail]
        simp
      simp only [register_user, hcond, Bool.not_true, Bool.false_eq_true,
        if_false, hage, hfind, if_true]
      rw [if_neg (by omega : ¬(a2 < 1)), if_neg (by omega : ¬(a2 < 18))]
    · rw [husers]
      simp

theorem duplicate_email_conflict_witness :
    register_user db1 carolReq "u2" none =
      (.conflict "User with this email already exists.", db1) ∧
    db1.users.length = initDB.users.length + 1 :=
  duplicate_email_conflict initDB aliceReq carolReq "u1" "u2" none none 30
    rfl rfl rfl rfl rfl rfl rfl (by decide)

/-- C9: no user-data-returning operation exposes the password digest: the
user projection has exactly the seven public fields and no password key;
progress retrieval, the data-update response and the admin user listing
all answer with that projection; the registration response has exactly its
five fields, none of them the digest. -/
theorem no_password_in_responses :
    (∀ u : User, (User.to_dict u).map Prod.fst =
        ["id", "username", "email", "age", "onboardingData", "currentStep",
         "created_at"] ∧
      dictLookup (User.to_dict u) "password_hash" = none ∧
      dictLookup (User.to_dict u) "password" = none) ∧
    (∀ (db : DB) (uid : String) (u : User),
      findUser db.users uid = some u →
      get_user_progress db uid = .ok u.to_dict) ∧
    (∀ (db : DB) (uid : String) (d : Option Dict) (k : Option Int) (u : User),
      findUser db.users uid = some u →
      (update_user_data db uid d k).1 = .ok (applyUpdate u d k).to_dict) ∧
    (∀ db : DB, get_all_users db =
      .okArr (db.users.map (fun u => .obj u.to_dict))) ∧
    (∀ (db : DB) (req : RegisterRequest) (fid : String) (now : Option String),
      (register_user db req fid now).1.isCreated = true →
      (register_user db req fid now).1.bodyKeys =
        ["message", "userId", "onboardingData", "currentStep", "username"]) := by
  refine ⟨?_, ?_, ?_, ?_, ?_⟩
  · intro u
    exact ⟨rfl, rfl, rfl⟩
  · intro db uid u hu
    simp [get_user_progress, hu]
  · intro db uid d k u hu
    simp [update_user_data, hu]
  · intro db
    rfl
  · intro db req fid now h
    rcases register_cases db req fid now with ⟨hnc, _⟩ | ⟨w, hres, _, _, _⟩
    · rw [h] at hnc
      exact absurd hnc (by decide)
    · rw [hres]
      rfl

theorem no_password_in_responses_witness :
    get_user_progress db1 "u1" = .ok uAlice.to_dict ∧
    (register_user initDB aliceReq "u1" none).1.bodyKeys =
      ["message", "userId", "onboardingData", "currentStep", "username"] :=
  ⟨no_password_in_responses.2.1 db1 "u1" uAlice rfl,
   no_password_in_responses.2.2.2.2 initDB aliceReq "u1" none rfl⟩

/-- C10: a registration whose age field is present but equal to the integer
0 (falsy in Python), or any of whose fields is falsy such as an
empty-string password, fails the truthiness-based presence check and is
answered with the missing-fields 400 error, not the invalid-age error. -/
theorem falsy_age_zero_yields_required_error :
    (∀ (db : DB) (u e p : Option String) (fid : String) (now : Option String),
      register_user db
        { username := u, email := e, password := p, age := some (.num 0) }
        fid now =
        (.validationError "Username, email, password, and age are required.",
         db)) ∧
    (∀ (db : DB) (u e : Option String) (age : Option Json) (fid : String)
        (now : Option String),
      register_user db
        { username := u, email := e, password := some "", age := age }
        fid now =
        (.validationError "Username, email, password, and age are required.",
         db)) := by
  constructor
  · intro db u e p fid now
    simp [register_user, otruthy, Json.truthy]
  · intro db u e age fid now
    simp [register_user, struthy]
